import Mathlib

/-!
Shallow embedding of the problem-normalization and solver-dispatch layer of
the qpsolvers repository (files `qpsolvers/solve_qp.py` and
`qpsolvers/solvers/piqp_.py`), together with theorems settling the frozen
claims about it.

Dense numpy arrays are modelled over exact rationals: a vector is a length
plus an entry function, a matrix is a pair of dimensions plus an entry
function.  Entries outside the declared dimensions are irrelevant junk, as
in any shallow embedding of fixed-shape arrays by total functions.
Python exceptions are modelled by an `Except` result type.
-/

namespace QPSolvers

/-- Dense 1-D numpy array over exact rationals: a length and an entry map. -/
@[ext]
structure Vec where
  len : Nat
  entry : Nat → ℚ

/-- Dense 2-D numpy array over exact rationals: dimensions and an entry map. -/
@[ext]
structure Mat where
  rows : Nat
  cols : Nat
  entry : Nat → Nat → ℚ

/-- numpy `zeros(n)` as a vector. -/
def zerosV (n : Nat) : Vec := ⟨n, fun _ => 0⟩

/-- numpy `ones(n)`. -/
def onesV (n : Nat) : Vec := ⟨n, fun _ => 1⟩

/-- Scalar multiplication `c * v` of a 1-D array. -/
def smulV (c : ℚ) (v : Vec) : Vec := ⟨v.len, fun i => c * v.entry i⟩

/-- numpy `hstack([u, v])` on 1-D arrays. -/
def hstackV (u v : Vec) : Vec :=
  ⟨u.len + v.len, fun i => if i < u.len then u.entry i else v.entry (i - u.len)⟩

/-- Python slice `v[:n]` on a 1-D array. -/
def takeV (n : Nat) (v : Vec) : Vec := ⟨min n v.len, v.entry⟩

/-- Python slice `v[k:]` on a 1-D array. -/
def dropV (k : Nat) (v : Vec) : Vec := ⟨v.len - k, fun i => v.entry (k + i)⟩

/-- numpy `eye(n)`. -/
def eyeM (n : Nat) : Mat := ⟨n, n, fun i j => if i = j then 1 else 0⟩

/-- numpy `zeros((m, n))`. -/
def zerosM (m n : Nat) : Mat := ⟨m, n, fun _ _ => 0⟩

/-- numpy `M.transpose()` / `M.T`. -/
def transposeM (M : Mat) : Mat := ⟨M.cols, M.rows, fun i j => M.entry j i⟩

/-- Elementwise sum `M + N` of two same-shape 2-D arrays. -/
def addM (M N : Mat) : Mat := ⟨M.rows, M.cols, fun i j => M.entry i j + N.entry i j⟩

/-- Scalar multiplication `c * M` of a 2-D array. -/
def smulM (c : ℚ) (M : Mat) : Mat := ⟨M.rows, M.cols, fun i j => c * M.entry i j⟩

/-- numpy unary negation `-M`. -/
def negM (M : Mat) : Mat := ⟨M.rows, M.cols, fun i j => -(M.entry i j)⟩

/-- numpy `hstack([X, Y])` on 2-D arrays (same row count). -/
def hstackM (X Y : Mat) : Mat :=
  ⟨X.rows, X.cols + Y.cols,
    fun i j => if j < X.cols then X.entry i j else Y.entry i (j - X.cols)⟩

/-- numpy `vstack([X, Y])` on 2-D arrays (same column count). -/
def vstackM (X Y : Mat) : Mat :=
  ⟨X.rows + Y.rows, X.cols,
    fun i j => if i < X.rows then X.entry i j else Y.entry (i - X.rows) j⟩

/-- Matrix-vector product `M @ v`, reading the first `M.cols` entries of `v`. -/
def mulVecM (M : Mat) (v : Vec) : Vec :=
  ⟨M.rows, fun i => ∑ j ∈ Finset.range M.cols, M.entry i j * v.entry j⟩

/-- Build a matrix from a rectangular list of row lists (for concrete instances). -/
def matOf (l : List (List ℚ)) : Mat :=
  ⟨l.length, (l.headD []).length, fun i j => ((l.getD i []).getD j 0)⟩

/-- Build a vector from a list (for concrete instances). -/
def vecOf (l : List ℚ) : Vec := ⟨l.length, fun i => l.getD i 0⟩

/-- Python exceptions that the modelled layer can raise or propagate. -/
inductive PyExc where
  | keyError (msg : String)
  | solverNotFound (msg : String)
  | typeError (msg : String)
  | problemError (msg : String)
  | paramError (msg : String)
  | valueError (msg : String)
  | assertionError (msg : String)
  | otherError (msg : String)
deriving DecidableEq, Repr

/-- A 1-D or 2-D numpy array, distinguishing `ndim` as `solve_qp` does when it
promotes a flat constraint vector to a single-row matrix. -/
inductive Arr where
  | vec (v : Vec)
  | mat (M : Mat)

/-- The 1-D-to-2-D promotion applied by `solve_qp` to `A` and `G`
(`X.reshape((1, X.shape[0]))` when `X.ndim == 1`); a 2-D array is unchanged. -/
def promote1D : Option Arr → Option Mat
  | none => none
  | some (.vec v) => some ⟨1, v.len, fun _ j => v.entry j⟩
  | some (.mat M) => some M

/-- The symmetrization step `P = 0.5 * (P + P.transpose())` of `solve_qp`. -/
def symProject (P : Mat) : Mat := smulM (1/2) (addM P (transposeM P))

/-- Modelled from the spec: `check_problem_constraints` (imported by
`solve_qp.py` but not part of the given sources) validates G/h and A/b
co-presence and dimension agreement, failing fast with a ProblemError naming
the offending matrix before any solver is invoked. -/
def check_problem_constraints (G : Option Mat) (h : Option Vec)
    (A : Option Mat) (b : Option Vec) : Except PyExc Unit :=
  match G, h with
  | some _, none => .error (.problemError "G is set but h is not set")
  | none, some _ => .error (.problemError "h is set but G is not set")
  | some Gm, some hv =>
    if Gm.rows ≠ hv.len then
      .error (.problemError "G and h have incompatible dimensions")
    else
      match A, b with
      | some _, none => .error (.problemError "A is set but b is not set")
      | none, some _ => .error (.problemError "b is set but A is not set")
      | some Am, some bv =>
        if Am.rows ≠ bv.len then
          .error (.problemError "A and b have incompatible dimensions")
        else .ok ()
      | none, none => .ok ()
  | none, none =>
    match A, b with
    | some _, none => .error (.problemError "A is set but b is not set")
    | none, some _ => .error (.problemError "b is set but A is not set")
    | some Am, some bv =>
      if Am.rows ≠ bv.len then
        .error (.problemError "A and b have incompatible dimensions")
      else .ok ()
    | none, none => .ok ()

/-- Modelled from the spec: `concatenate_bounds` (imported by `solve_qp.py`
but not part of the given sources) folds box bounds into the inequality
system, appending the rows `-x <= -lb` and `x <= ub` to the `(G, h)` pair;
when no inequality system is present the appended rows form it entirely. -/
def concatenate_bounds (G : Option Mat) (h : Option Vec)
    (lb ub : Option Vec) : Option Mat × Option Vec :=
  let boundRows : Option (Mat × Vec) :=
    match lb, ub with
    | none, none => none
    | some l, none => some (negM (eyeM l.len), smulV (-1) l)
    | none, some u => some (eyeM u.len, u)
    | some l, some u =>
        some (vstackM (negM (eyeM l.len)) (eyeM u.len),
              hstackV (smulV (-1) l) u)
  match boundRows with
  | none => (G, h)
  | some (B, c) =>
    match G, h with
    | some Gm, some hv => (some (vstackM Gm B), some (hstackV hv c))
    | _, _ => (some B, some c)

/-- Arguments handed to a registered solver adapter by the dispatcher:
`solve_function[solver](P, q, G, h, A, b, **kwargs)` where the kwargs carry
`initvals` and `verbose`. -/
structure QPArgs where
  P : Mat
  q : Vec
  G : Option Mat
  h : Option Vec
  A : Option Mat
  b : Option Vec
  initvals : Option Vec
  verbose : Bool

/-- A registered solver adapter: returns an optional primal solution or
raises a Python exception. -/
def Adapter : Type := QPArgs → Except PyExc (Option Vec)

/-- The solver registry `solve_function`: a name-to-adapter mapping. -/
def Registry : Type := List (String × Adapter)

/-- Lines 127-130 of `solve_qp.py`: the dictionary lookup and adapter call
inside `try`, with `except KeyError` re-raised as `SolverNotFound`.  Note the
`except` clause covers the whole expression, so a `KeyError` raised inside a
registered adapter is also replaced by `SolverNotFound`. -/
def dispatchSolver (registry : Registry) (solver : String) (args : QPArgs) :
    Except PyExc (Option Vec) :=
  match registry.lookup solver with
  | none => .error (.solverNotFound ("solver " ++ solver ++ " is not available"))
  | some f =>
    match f args with
    | .error (.keyError _) =>
        .error (.solverNotFound ("solver " ++ solver ++ " is not available"))
    | r => r

/-- Lines 117-130 of `solve_qp.py`: optional symmetrization of `P`, 1-D
promotion of `A` and `G`, constraint validation, bound folding, then
dispatch to the registered adapter. -/
def solve_qp (registry : Registry) (P : Mat) (q : Vec)
    (G : Option Arr) (h : Option Vec) (A : Option Arr) (b : Option Vec)
    (lb ub : Option Vec) (solver : String) (initvals : Option Vec)
    (sym_proj : Bool) (verbose : Bool) : Except PyExc (Option Vec) :=
  let P1 := if sym_proj then symProject P else P
  let A1 := promote1D A
  let G1 := promote1D G
  match check_problem_constraints G1 h A1 b with
  | .error e => .error e
  | .ok _ =>
    let GH := concatenate_bounds G1 h lb ub
    dispatchSolver registry solver ⟨P1, q, GH.1, GH.2, A1, b, initvals, verbose⟩

/-- Lines 209-216 of `solve_qp.py` (`solve_safer_qp`): construction of the
augmented problem `(P2, q2, G2, h2, A2, b2)` with `n = P.shape[0]`,
`m = G.shape[0]`, `E = eye(m)`, `Z = zeros((m, n))`. -/
def saferAugment (P : Mat) (q : Vec) (G : Mat) (h : Vec) (sw reg : ℚ) :
    Mat × Vec × Mat × Vec × Mat × Vec :=
  let n := P.rows
  let m := G.rows
  let E := eyeM m
  let Z := zerosM m n
  (vstackM (hstackM P (transposeM Z)) (hstackM Z (smulM reg (eyeM m))),
   hstackV q (smulV (-sw) (onesV m)),
   hstackM Z E,
   zerosV m,
   hstackM G (negM E),
   h)

/-- Lines 208-230 of `solve_qp.py` (`solve_safer_qp`): assert the solver is
dense-capable, build the augmented problem, dispatch it through `solve_qp`,
and return the `x` portion (`x[:n]`) of the augmented solution, or `None`. -/
def solve_safer_qp (dense_solvers : List String) (registry : Registry)
    (P : Mat) (q : Vec) (G : Mat) (h : Vec) (sw : ℚ) (reg : ℚ)
    (solver : String) (initvals : Option Vec) (sym_proj : Bool) :
    Except PyExc (Option Vec) :=
  if solver ∈ dense_solvers then
    let n := P.rows
    let a := saferAugment P q G h sw reg
    match solve_qp registry a.1 a.2.1 (some (.mat a.2.2.1)) (some a.2.2.2.1)
        (some (.mat a.2.2.2.2.1)) (some a.2.2.2.2.2) none none
        solver initvals sym_proj false with
    | .error e => .error e
    | .ok none => .ok none
    | .ok (some x) => .ok (some (takeV n x))
  else .error (.assertionError "only available for dense solvers, for now")

/-! PIQP adapter (`qpsolvers/solvers/piqp_.py`).  The PIQP backend itself is
an external collaborator; its behavior is an oracle parameter.  Matrices on
this interface carry a representation tag mirroring the dense-ndarray versus
sparse-csc distinction that `use_csc` tests with `isinstance`. -/

/-- A matrix on the PIQP interface: the value plus its representation tag
(dense numpy ndarray or sparse csc matrix). -/
inductive PiqpMat where
  | dense (M : Mat)
  | csc (M : Mat)

/-- Whether the array is a dense ndarray (`isinstance(X, np.ndarray)`). -/
def PiqpMat.isDense : PiqpMat → Bool
  | .dense _ => true
  | .csc _ => false

/-- The underlying matrix value. -/
def PiqpMat.val : PiqpMat → Mat
  | .dense M => M
  | .csc M => M

/-- Modelled from the spec: `ensure_sparse_matrices` (from
`qpsolvers/conversions.py`, not part of the given sources) converts a dense
array to a sparse compressed-column representation preserving all values. -/
def ensureSparse : PiqpMat → PiqpMat
  | .dense M => .csc M
  | .csc M => .csc M

/-- Modelled from the spec: the `Problem` model (`qpsolvers/problem.py`, not
part of the given sources) bundles `(P, q, G, h, A, b, lb, ub)`. -/
structure Problem where
  P : PiqpMat
  q : Vec
  G : Option PiqpMat
  h : Option Vec
  A : Option PiqpMat
  b : Option Vec
  lb : Option Vec
  ub : Option Vec

/-- Modelled from the spec: constructing a `Problem` from raw data fails with
ProblemError if `G`/`h` presence is mismatched, or `A`/`b` presence is
mismatched. -/
def mkProblem (P : PiqpMat) (q : Vec) (G : Option PiqpMat) (h : Option Vec)
    (A : Option PiqpMat) (b : Option Vec) (lb ub : Option Vec) :
    Except PyExc Problem :=
  match G, h with
  | some _, none => .error (.problemError "G is set but h is not set")
  | none, some _ => .error (.problemError "h is set but G is not set")
  | _, _ =>
    match A, b with
    | some _, none => .error (.problemError "A is set but b is not set")
    | none, some _ => .error (.problemError "b is set but A is not set")
    | _, _ => .ok ⟨P, q, G, h, A, b, lb, ub⟩

/-- Modelled from the spec: the `Solution` model (`qpsolvers/solution.py`,
not part of the given sources): found flag, primal `x`, equality dual `y`,
inequality dual `z`, box dual `z_box` (unset when bounds were folded or
absent), referencing the originating problem. -/
structure Solution where
  problem : Problem
  found : Bool
  x : Vec
  y : Vec
  z : Vec
  z_box : Option Vec

/-- Status reported by `solver.solve()` in the PIQP binding. -/
inductive PiqpStatus where
  | solved
  | maxIterReached
  | primalInfeasible
  | dualInfeasible
deriving DecidableEq

/-- The PIQP backend chosen by `__select_backend`: `piqp.DenseSolver()` or
`piqp.SparseSolver()`. -/
inductive PiqpBackend where
  | denseSolver
  | sparseSolver
deriving DecidableEq

/-- Lines 38-65 of `piqp_.py` (`__select_backend`): `None` selects sparse or
dense from `use_csc`, `"dense"` and `"sparse"` select explicitly, anything
else raises ParamError. -/
def selectBackend (backend : Option String) (use_csc : Bool) :
    Except PyExc PiqpBackend :=
  match backend with
  | none => .ok (if use_csc then .sparseSolver else .denseSolver)
  | some s =>
    if s = "dense" then .ok .denseSolver
    else if s = "sparse" then .ok .sparseSolver
    else .error (.paramError ("Unknown PIQP backend " ++ s))

/-- Arguments of `solver.setup(P, q, A, b, G, h, lb, ub, verbose=verbose)`. -/
structure PiqpSetup where
  P : PiqpMat
  q : Vec
  A : Option PiqpMat
  b : Option Vec
  G : Option PiqpMat
  h : Option Vec
  lb : Option Vec
  ub : Option Vec
  verbose : Bool

/-- What `solver.solve()` and `solver.result` expose after a run: the status
and the raw primal and dual vectors. -/
structure PiqpRun where
  status : PiqpStatus
  x : Vec
  y : Vec
  z : Vec

/-- The external PIQP numerical solver, abstracted as an oracle from the
chosen backend and setup arguments to a run result. -/
def PiqpOracle : Type := PiqpBackend → PiqpSetup → PiqpRun

/-- The `use_csc` test of `piqp_solve_problem`:
`not isinstance(P, np.ndarray) or (G is not None and not isinstance(G, np.ndarray))
or (A is not None and not isinstance(A, np.ndarray))`. -/
def use_csc (P : PiqpMat) (G A : Option PiqpMat) : Bool :=
  (!P.isDense)
  || (match G with | some Gm => !Gm.isDense | none => false)
  || (match A with | some Am => !Am.isDense | none => false)

/-- Python slice `z[:-n]` on a 1-D array: empty when `n = 0` (since `z[:-0]`
is `z[:0]`), otherwise the first `len - n` entries. -/
def sliceToNegN (n : Nat) (z : Vec) : Vec :=
  if n = 0 then takeV 0 z else takeV (z.len - n) z

/-- Python slice `z[-n:]` on a 1-D array: the whole array when `n = 0` (since
`z[-0:]` is `z[0:]`), otherwise the last `min n len` entries. -/
def sliceFromNegN (n : Nat) (z : Vec) : Vec :=
  if n = 0 then z else dropV (z.len - n) z

/-- Lines 163-174 of `piqp_.py`: the arguments handed to `solver.setup`, in
setup order `(P, q, A, b, G, h, lb, ub, verbose)`, after the `use_csc`
representation conversion. -/
def piqpSetupArgs (problem : Problem) (verbose : Bool) : PiqpSetup :=
  let uc := use_csc problem.P problem.G problem.A
  let P1 := if uc then ensureSparse problem.P else problem.P
  let G1 := if uc then Option.map ensureSparse problem.G else problem.G
  let A1 := if uc then Option.map ensureSparse problem.A else problem.A
  ⟨P1, problem.q, A1, problem.b, G1, problem.h, problem.lb, problem.ub,
   verbose⟩

/-- Lines 163-188 of `piqp_.py` (`piqp_solve_problem`): unpack the problem,
compute `use_csc`, convert representations if needed, select the backend,
run setup and solve, and package the `Solution`, splitting the inequality
dual `z` into `z[:-n]` and `z[-n:]` when box bounds are present. -/
def piqp_solve_problem (oracle : PiqpOracle) (problem : Problem)
    (verbose : Bool) (backend : Option String) : Except PyExc Solution :=
  let n := problem.q.len
  match selectBackend backend (use_csc problem.P problem.G problem.A) with
  | .error e => .error e
  | .ok bk =>
    let r := oracle bk (piqpSetupArgs problem verbose)
    .ok { problem := problem
          found := decide (r.status = .solved)
          x := r.x
          y := r.y
          z := if problem.lb.isSome || problem.ub.isSome
               then sliceToNegN n r.z else r.z
          z_box := if problem.lb.isSome || problem.ub.isSome
                   then some (sliceFromNegN n r.z) else none }

/-- A Python value appearing as an argument of the call
`piqp_solve_problem(problem, initvals, verbose, backend)`. -/
inductive PyVal where
  | problem (p : Problem)
  | optVec (v : Option Vec)
  | pyBool (b : Bool)
  | optStr (s : Option String)

/-- The positional-or-keyword parameters of `piqp_solve_problem`
(`problem`, `verbose`, `backend`; the trailing `**kwargs` absorbs no
positional arguments). -/
def piqpSolveProblemParams : List String := ["problem", "verbose", "backend"]

/-- Python call binding for a function with the given positional-or-keyword
parameter names and a trailing `**kwargs` but no `*args`: passing more
positional arguments than parameters raises TypeError before the body runs. -/
def bindCall (params : List String) (args : List PyVal) :
    Except PyExc (List (String × PyVal)) :=
  if params.length < args.length then
    .error (.typeError "too many positional arguments")
  else .ok (params.zip args)

/-- The body that would run if the call from `piqp_solve_qp` into
`piqp_solve_problem` bound successfully: extract the bound arguments and
finish with `solution.x if solution.found else None` (lines 255-258). -/
def runBoundPiqpCall (oracle : PiqpOracle)
    (binds : List (String × PyVal)) : Except PyExc (Option Vec) :=
  match binds.lookup "problem", binds.lookup "verbose", binds.lookup "backend" with
  | some (.problem pb), some (.pyBool vb), some (.optStr be) =>
    match piqp_solve_problem oracle pb vb be with
    | .error e => .error e
    | .ok sol => .ok (if sol.found then some sol.x else none)
  | _, _, _ => .error (.typeError "argument of unexpected type")

/-- Lines 254-258 of `piqp_.py` (`piqp_solve_qp`): build the `Problem`, then
call `piqp_solve_problem(problem, initvals, verbose, backend, **kwargs)` —
four positional arguments against three positional parameters. -/
def piqp_solve_qp (oracle : PiqpOracle) (P : PiqpMat) (q : Vec)
    (G : Option PiqpMat) (h : Option Vec) (A : Option PiqpMat)
    (b : Option Vec) (lb ub : Option Vec) (initvals : Option Vec)
    (verbose : Bool) (backend : Option String) : Except PyExc (Option Vec) :=
  match mkProblem P q G h A b lb ub with
  | .error e => .error e
  | .ok problem =>
    match bindCall piqpSolveProblemParams
        [.problem problem, .optVec initvals, .pyBool verbose, .optStr backend] with
    | .error e => .error e
    | .ok binds => runBoundPiqpCall oracle binds

/-! Shared helper lemmas about the dispatcher and the normalization pipeline. -/

/-- When constraint validation fails, `solve_qp` returns exactly that error,
whatever the registry holds. -/
theorem solveQpOfCheckError (registry : Registry) (P : Mat) (q : Vec)
    (G : Option Arr) (h : Option Vec) (A : Option Arr) (b : Option Vec)
    (lb ub : Option Vec) (solver : String) (initvals : Option Vec)
    (sym_proj verbose : Bool) (e : PyExc)
    (hc : check_problem_constraints (promote1D G) h (promote1D A) b = .error e) :
    solve_qp registry P q G h A b lb ub solver initvals sym_proj verbose
      = .error e := by
  simp only [solve_qp, hc]

/-- When constraint validation passes, `solve_qp` is exactly the dispatcher
applied to the normalized arguments. -/
theorem solveQpOfCheckOk (registry : Registry) (P : Mat) (q : Vec)
    (G : Option Arr) (h : Option Vec) (A : Option Arr) (b : Option Vec)
    (lb ub : Option Vec) (solver : String) (initvals : Option Vec)
    (sym_proj verbose : Bool)
    (hc : check_problem_constraints (promote1D G) h (promote1D A) b = .ok ()) :
    solve_qp registry P q G h A b lb ub solver initvals sym_proj verbose
      = dispatchSolver registry solver
          ⟨if sym_proj then symProject P else P, q,
           (concatenate_bounds (promote1D G) h lb ub).1,
           (concatenate_bounds (promote1D G) h lb ub).2,
           promote1D A, b, initvals, verbose⟩ := by
  simp only [solve_qp, hc]

/-- Dispatcher behavior on an absent solver name. -/
theorem dispatchSolverNotFound (registry : Registry) (solver : String)
    (args : QPArgs) (hl : registry.lookup solver = none) :
    dispatchSolver registry solver args
      = .error (.solverNotFound ("solver " ++ solver ++ " is not available")) := by
  simp only [dispatchSolver, hl]

/-- Dispatcher behavior when the registered adapter raises `KeyError`: the
exception is replaced by `SolverNotFound`. -/
theorem dispatchSolverKeyError (registry : Registry) (solver : String)
    (args : QPArgs) (f : Adapter) (msg : String)
    (hl : registry.lookup solver = some f)
    (hf : f args = .error (.keyError msg)) :
    dispatchSolver registry solver args
      = .error (.solverNotFound ("solver " ++ solver ++ " is not available")) := by
  simp only [dispatchSolver, hl, hf]

/-- Dispatcher behavior when the registered adapter raises anything other
than `KeyError`: the exception propagates unchanged. -/
theorem dispatchSolverOtherError (registry : Registry) (solver : String)
    (args : QPArgs) (f : Adapter) (e : PyExc)
    (hl : registry.lookup solver = some f)
    (hf : f args = .error e) (hne : ∀ msg, e ≠ .keyError msg) :
    dispatchSolver registry solver args = .error e := by
  simp only [dispatchSolver, hl, hf]
  cases e with
  | keyError msg => exact absurd rfl (hne msg)
  | _ => rfl

/-- Dispatcher behavior when the registered adapter returns normally. -/
theorem dispatchSolverOk (registry : Registry) (solver : String)
    (args : QPArgs) (f : Adapter) (v : Option Vec)
    (hl : registry.lookup solver = some f) (hf : f args = .ok v) :
    dispatchSolver registry solver args = .ok v := by
  simp only [dispatchSolver, hl, hf]

/-! Concrete fixtures used by witnesses and counterexamples. -/

/-- A concrete square matrix for witnesses. -/
def wMat2 : Mat := matOf [[1, 2], [3, 4]]

/-- A concrete 1-by-1 cost matrix. -/
def wP1 : Mat := matOf [[2]]

/-- A concrete length-1 cost vector. -/
def wq1 : Vec := vecOf [0]

/-- A concrete 1-by-1 inequality matrix. -/
def wG1 : Mat := matOf [[1]]

/-- A concrete length-1 inequality vector. -/
def wh1 : Vec := vecOf [0]

/-! ## C7 — symmetrization is idempotent -/

/-- C7: the symmetrization step applied by `solve_qp` when `sym_proj` is set,
`P` to `(1/2) * (P + P.transpose())`, is idempotent: for every square matrix
`P`, applying it twice yields the same matrix as applying it once
(elementwise; exactly, in the exact-rational model of the arithmetic). -/
theorem symProject_idempotent (P : Mat) (hsq : P.rows = P.cols) :
    symProject (symProject P) = symProject P := by
  unfold symProject smulM addM transposeM
  congr 1
  funext i j
  ring

/-- Witness for C7 at a concrete square matrix. -/
theorem symProject_idempotent_witness :
    wMat2.rows = wMat2.cols ∧ symProject (symProject wMat2) = symProject wMat2 :=
  ⟨rfl, symProject_idempotent wMat2 rfl⟩

/-! ## C8 — PIQP backend selection -/

/-- C8: in the PIQP adapter, backend selection raises ParamError for every
`backend` argument outside none, "dense" and "sparse", and never raises for
those three values: none selects sparse or dense from the matrix
representations (the `use_csc` flag), "dense" the dense solver, "sparse" the
sparse solver. -/
theorem selectBackend_spec (backend : Option String) (uc : Bool) :
    (backend = none →
       selectBackend backend uc
         = .ok (if uc then .sparseSolver else .denseSolver))
  ∧ (backend = some "dense" → selectBackend backend uc = .ok .denseSolver)
  ∧ (backend = some "sparse" → selectBackend backend uc = .ok .sparseSolver)
  ∧ (∀ s, backend = some s → s ≠ "dense" → s ≠ "sparse" →
       selectBackend backend uc
         = .error (.paramError ("Unknown PIQP backend " ++ s))) := by
  refine ⟨?_, ?_, ?_, ?_⟩
  · rintro rfl; rfl
  · rintro rfl; rfl
  · rintro rfl; rfl
  · rintro s rfl hd hs
    simp only [selectBackend, if_neg hd, if_neg hs]

/-- Witness for C8: an unknown backend name raises ParamError, and the three
legal values never do. -/
theorem selectBackend_spec_witness :
    selectBackend (some "qr") true
      = .error (.paramError ("Unknown PIQP backend " ++ "qr"))
  ∧ selectBackend none false = .ok .denseSolver
  ∧ selectBackend (some "dense") true = .ok .denseSolver
  ∧ selectBackend (some "sparse") false = .ok .sparseSolver :=
  ⟨(selectBackend_spec (some "qr") true).2.2.2 "qr" rfl
      (by decide) (by decide),
   (selectBackend_spec none false).1 rfl,
   (selectBackend_spec (some "dense") true).2.1 rfl,
   (selectBackend_spec (some "sparse") false).2.2.1 rfl⟩

/-! ## C6 — `solve_safer_qp` requires a dense-capable solver -/

/-- C6: `solve_safer_qp` requires the target solver to be a dense-matrix
backend: whenever the `solver` argument is not among the dense solvers, it
fails the assertion (an AssertionError) before constructing or dispatching
the augmented problem — the result is the same for every registry. -/
theorem solve_safer_qp_dense_assert (dense_solvers : List String)
    (registry : Registry) (P : Mat) (q : Vec) (G : Mat) (h : Vec)
    (sw reg : ℚ) (solver : String) (initvals : Option Vec) (sym_proj : Bool)
    (hs : solver ∉ dense_solvers) :
    solve_safer_qp dense_solvers registry P q G h sw reg solver initvals
      sym_proj
      = .error (.assertionError "only available for dense solvers, for now") := by
  simp only [solve_safer_qp, if_neg hs]

/-- Witness for C6 at a concrete non-dense solver name and empty registry. -/
theorem solve_safer_qp_dense_assert_witness :
    "osqp" ∉ ["quadprog", "cvxopt"]
  ∧ solve_safer_qp ["quadprog", "cvxopt"] [] wP1 wq1 wG1 wh1 1 (1/100) "osqp"
      none false
      = .error (.assertionError "only available for dense solvers, for now") :=
  ⟨by decide,
   solve_safer_qp_dense_assert ["quadprog", "cvxopt"] [] wP1 wq1 wG1 wh1 1
     (1/100) "osqp" none false (by decide)⟩

/-! ## C4 — normalization pipeline order in `solve_qp` -/

/-- C4: `solve_qp` applies its normalization steps in a fixed order before
any adapter is invoked: symmetrization of `P` when `sym_proj` is set, 1-D
promotion of `A` and `G` to single-row matrices, constraint validation that
fails with a ProblemError before any backend call (the same error for every
registry), folding of `lb` and `ub` into the inequality pair, and only then
the lookup and invocation of the adapter with the normalized arguments. -/
theorem solve_qp_pipeline (registry : Registry) (P : Mat) (q : Vec)
    (G : Option Arr) (h : Option Vec) (A : Option Arr) (b : Option Vec)
    (lb ub : Option Vec) (solver : String) (initvals : Option Vec)
    (sym_proj verbose : Bool) :
    (∀ e, check_problem_constraints (promote1D G) h (promote1D A) b = .error e →
       ∀ reg2 : Registry,
         solve_qp reg2 P q G h A b lb ub solver initvals sym_proj verbose
           = .error e)
  ∧ (check_problem_constraints (promote1D G) h (promote1D A) b = .ok () →
       solve_qp registry P q G h A b lb ub solver initvals sym_proj verbose
         = dispatchSolver registry solver
             ⟨if sym_proj then symProject P else P, q,
              (concatenate_bounds (promote1D G) h lb ub).1,
              (concatenate_bounds (promote1D G) h lb ub).2,
              promote1D A, b, initvals, verbose⟩) :=
  ⟨fun e hc reg2 =>
     solveQpOfCheckError reg2 P q G h A b lb ub solver initvals sym_proj
       verbose e hc,
   fun hc =>
     solveQpOfCheckOk registry P q G h A b lb ub solver initvals sym_proj
       verbose hc⟩

/-- A recording-free witness adapter that always returns a fixed solution. -/
def wAdapterOk : Adapter := fun _ => .ok (some (vecOf [5, 7]))

/-- A one-entry registry holding the witness adapter under the name "s". -/
def wRegistry : Registry := [("s", wAdapterOk)]

/-- Witness for C4: on a well-formed concrete problem the dispatcher is
reached with the normalized arguments; on a malformed one (G without h) the
validation error comes back for the empty registry as well. -/
theorem solve_qp_pipeline_witness :
    check_problem_constraints (promote1D (some (.mat wG1))) (some wh1)
      (promote1D none) none = .ok ()
  ∧ solve_qp wRegistry wP1 wq1 (some (.mat wG1)) (some wh1) none none none
      none "s" none false false
      = dispatchSolver wRegistry "s"
          ⟨wP1, wq1,
           (concatenate_bounds (promote1D (some (.mat wG1))) (some wh1)
             none none).1,
           (concatenate_bounds (promote1D (some (.mat wG1))) (some wh1)
             none none).2,
           promote1D none, none, none, false⟩
  ∧ check_problem_constraints (promote1D (some (.mat wG1))) none
      (promote1D none) none
      = .error (.problemError "G is set but h is not set")
  ∧ solve_qp [] wP1 wq1 (some (.mat wG1)) none none none none none "s" none
      false false
      = .error (.problemError "G is set but h is not set") :=
  ⟨rfl,
   (solve_qp_pipeline wRegistry wP1 wq1 (some (.mat wG1)) (some wh1) none
     none none none "s" none false false).2 rfl,
   rfl,
   (solve_qp_pipeline wRegistry wP1 wq1 (some (.mat wG1)) none none none
     none none "s" none false false).1
     (.problemError "G is set but h is not set") rfl []⟩

/-! ## C2 — SolverNotFound semantics of `solve_qp` -/

/-- An adapter that raises `KeyError`, as a registered backend may. -/
def cxAdapterKey : Adapter := fun _ => .error (.keyError "boom")

/-- A registry holding only the `KeyError`-raising adapter under "s". -/
def cxRegistryKey : Registry := [("s", cxAdapterKey)]

/-- A throwaway argument bundle for evaluating adapters directly. -/
def cxArgsAny : QPArgs := ⟨wP1, wq1, none, none, none, none, none, false⟩

/-- Counterexample for C2 as stated.  First: the solver name "s" is present
in the registry, and its adapter raises `KeyError`, yet `solve_qp` reports
`SolverNotFound` — so SolverNotFound is not raised only for absent names,
and the adapter exception does not propagate unchanged.  Second: with a
malformed problem (G without h) and an absent solver name, `solve_qp` raises
ProblemError, not SolverNotFound. -/
theorem solve_qp_not_found_cx :
    cxRegistryKey.lookup "s" = some cxAdapterKey
  ∧ cxAdapterKey cxArgsAny = .error (.keyError "boom")
  ∧ solve_qp cxRegistryKey wP1 wq1 none none none none none none "s" none
      false false
      = .error (.solverNotFound ("solver " ++ "s" ++ " is not available"))
  ∧ (Except.error (.solverNotFound ("solver " ++ "s" ++ " is not available"))
       : Except PyExc (Option Vec)) ≠ .error (.keyError "boom")
  ∧ solve_qp [] wP1 wq1 (some (.mat wG1)) none none none none none "zzz"
      none false false
      = .error (.problemError "G is set but h is not set")
  ∧ (Except.error (.problemError "G is set but h is not set")
       : Except PyExc (Option Vec))
      ≠ .error (.solverNotFound ("solver " ++ "zzz" ++ " is not available")) :=
  ⟨rfl, rfl, rfl,
   by intro hcon; exact absurd (Except.error.inj hcon) (by decide),
   rfl,
   by intro hcon; exact absurd (Except.error.inj hcon) (by decide)⟩

/-- C2 amended: for inputs passing constraint validation, `solve_qp` raises
SolverNotFound when the `solver` argument is absent from the registry, and
also when the registered adapter itself raises `KeyError` during its
invocation (the `except KeyError` clause replaces it by SolverNotFound);
every non-KeyError outcome of a registered adapter — error or solution —
comes back unchanged. -/
theorem solve_qp_not_found_amended (registry : Registry) (P : Mat) (q : Vec)
    (G : Option Arr) (h : Option Vec) (A : Option Arr) (b : Option Vec)
    (lb ub : Option Vec) (solver : String) (initvals : Option Vec)
    (sym_proj verbose : Bool)
    (hc : check_problem_constraints (promote1D G) h (promote1D A) b = .ok ()) :
    (registry.lookup solver = none →
       solve_qp registry P q G h A b lb ub solver initvals sym_proj verbose
         = .error (.solverNotFound ("solver " ++ solver ++ " is not available")))
  ∧ (∀ f : Adapter, registry.lookup solver = some f →
       (∀ msg, f ⟨if sym_proj then symProject P else P, q,
                  (concatenate_bounds (promote1D G) h lb ub).1,
                  (concatenate_bounds (promote1D G) h lb ub).2,
                  promote1D A, b, initvals, verbose⟩
           = .error (.keyError msg) →
         solve_qp registry P q G h A b lb ub solver initvals sym_proj verbose
           = .error (.solverNotFound
               ("solver " ++ solver ++ " is not available")))
     ∧ (∀ e, f ⟨if sym_proj then symProject P else P, q,
                (concatenate_bounds (promote1D G) h lb ub).1,
                (concatenate_bounds (promote1D G) h lb ub).2,
                promote1D A, b, initvals, verbose⟩
           = .error e → (∀ msg, e ≠ .keyError msg) →
         solve_qp registry P q G h A b lb ub solver initvals sym_proj verbose
           = .error e)
     ∧ (∀ v, f ⟨if sym_proj then symProject P else P, q,
                (concatenate_bounds (promote1D G) h lb ub).1,
                (concatenate_bounds (promote1D G) h lb ub).2,
                promote1D A, b, initvals, verbose⟩
           = .ok v →
         solve_qp registry P q G h A b lb ub solver initvals sym_proj verbose
           = .ok v)) := by
  constructor
  · intro hl
    rw [solveQpOfCheckOk registry P q G h A b lb ub solver initvals sym_proj
      verbose hc]
    exact dispatchSolverNotFound registry solver _ hl
  · intro f hl
    refine ⟨?_, ?_, ?_⟩
    · intro msg hf
      rw [solveQpOfCheckOk registry P q G h A b lb ub solver initvals
        sym_proj verbose hc]
      exact dispatchSolverKeyError registry solver _ f msg hl hf
    · intro e hf hne
      rw [solveQpOfCheckOk registry P q G h A b lb ub solver initvals
        sym_proj verbose hc]
      exact dispatchSolverOtherError registry solver _ f e hl hf hne
    · intro v hf
      rw [solveQpOfCheckOk registry P q G h A b lb ub solver initvals
        sym_proj verbose hc]
      exact dispatchSolverOk registry solver _ f v hl hf

/-- Witness for the amended C2: a concrete absent solver name yields
SolverNotFound, and a concrete registered adapter returning a solution has
it passed through unchanged. -/
theorem solve_qp_not_found_amended_witness :
    check_problem_constraints (promote1D none) none (promote1D none) none
      = .ok ()
  ∧ solve_qp [] wP1 wq1 none none none none none none "zzz" none false false
      = .error (.solverNotFound ("solver " ++ "zzz" ++ " is not available"))
  ∧ solve_qp wRegistry wP1 wq1 none none none none none none "s" none false
      false = .ok (some (vecOf [5, 7])) :=
  ⟨rfl,
   (solve_qp_not_found_amended [] wP1 wq1 none none none none none none
     "zzz" none false false rfl).1 rfl,
   ((solve_qp_not_found_amended wRegistry wP1 wq1 none none none none none
     none "s" none false false rfl).2 wAdapterOk rfl).2.2
     (some (vecOf [5, 7])) rfl⟩

/-! ## C5 — result handling of `solve_safer_qp` -/

/-- C5: whenever the dispatched augmented solve succeeds, `solve_safer_qp`
returns exactly the first `n` components of the augmented solution, where
`n` is the number of columns of the (square) matrix `P`; whenever the
dispatched solve reports no solution, `solve_safer_qp` returns `None`
rather than raising an exception. -/
theorem solve_safer_qp_result (dense_solvers : List String)
    (registry : Registry) (P : Mat) (q : Vec) (G : Mat) (h : Vec)
    (sw reg : ℚ) (solver : String) (initvals : Option Vec) (sym_proj : Bool)
    (hs : solver ∈ dense_solvers) (hsq : P.rows = P.cols) :
    (∀ xs, solve_qp registry (saferAugment P q G h sw reg).1
        (saferAugment P q G h sw reg).2.1
        (some (.mat (saferAugment P q G h sw reg).2.2.1))
        (some (saferAugment P q G h sw reg).2.2.2.1)
        (some (.mat (saferAugment P q G h sw reg).2.2.2.2.1))
        (some (saferAugment P q G h sw reg).2.2.2.2.2)
        none none solver initvals sym_proj false = .ok (some xs) →
      solve_safer_qp dense_solvers registry P q G h sw reg solver initvals
        sym_proj = .ok (some (takeV P.cols xs)))
  ∧ (solve_qp registry (saferAugment P q G h sw reg).1
        (saferAugment P q G h sw reg).2.1
        (some (.mat (saferAugment P q G h sw reg).2.2.1))
        (some (saferAugment P q G h sw reg).2.2.2.1)
        (some (.mat (saferAugment P q G h sw reg).2.2.2.2.1))
        (some (saferAugment P q G h sw reg).2.2.2.2.2)
        none none solver initvals sym_proj false = .ok none →
      solve_safer_qp dense_solvers registry P q G h sw reg solver initvals
        sym_proj = .ok none) := by
  constructor
  · intro xs hok
    simp only [solve_safer_qp, if_pos hs, hok, hsq]
  · intro hok
    simp only [solve_safer_qp, if_pos hs, hok]

/-- Witness for C5: a concrete registered adapter returns the augmented
vector `[5, 7]` for the concrete 1-variable, 1-inequality instance, and
`solve_safer_qp` hands back its first component. -/
theorem solve_safer_qp_result_witness :
    "s" ∈ ["s"]
  ∧ wP1.rows = wP1.cols
  ∧ solve_qp wRegistry (saferAugment wP1 wq1 wG1 wh1 1 (1/100)).1
      (saferAugment wP1 wq1 wG1 wh1 1 (1/100)).2.1
      (some (.mat (saferAugment wP1 wq1 wG1 wh1 1 (1/100)).2.2.1))
      (some (saferAugment wP1 wq1 wG1 wh1 1 (1/100)).2.2.2.1)
      (some (.mat (saferAugment wP1 wq1 wG1 wh1 1 (1/100)).2.2.2.2.1))
      (some (saferAugment wP1 wq1 wG1 wh1 1 (1/100)).2.2.2.2.2)
      none none "s" none false false = .ok (some (vecOf [5, 7]))
  ∧ solve_safer_qp ["s"] wRegistry wP1 wq1 wG1 wh1 1 (1/100) "s" none false
      = .ok (some (takeV wP1.cols (vecOf [5, 7]))) :=
  ⟨by decide, rfl, rfl,
   (solve_safer_qp_result ["s"] wRegistry wP1 wq1 wG1 wh1 1 (1/100) "s"
     none false (by decide) rfl).1 (vecOf [5, 7]) rfl⟩

/-! ## C1 — the augmented QP built by `solve_safer_qp` -/

/-- Row `i < m` of the built inequality matrix `hstack([Z, E])` applied to an
augmented vector picks out the slack component `z[n + i]`. -/
theorem mulVec_slack_row (n m : Nat) (z : Vec) (i : Nat) (hi : i < m) :
    (mulVecM (hstackM (zerosM m n) (eyeM m)) z).entry i = z.entry (n + i) := by
  show (∑ j ∈ Finset.range (n + m),
      (if j < n then (0 : ℚ) else if i = j - n then 1 else 0) * z.entry j)
    = z.entry (n + i)
  rw [Finset.sum_eq_single_of_mem (n + i) (Finset.mem_range.mpr (by omega))]
  · rw [if_neg (by omega), Nat.add_sub_cancel_left, if_pos rfl, one_mul]
  · intro j _ hne
    rcases Nat.lt_or_ge j n with hlt | hge
    · rw [if_pos hlt, zero_mul]
    · rw [if_neg (Nat.not_lt.mpr hge), if_neg (by omega), zero_mul]

/-- Row `i < m` of the built equality matrix `hstack([G, -E])` applied to an
augmented vector computes `(G x)_i - z[G.cols + i]`, where `x` is the part
of `z` that `G` reads. -/
theorem mulVec_equality_row (G : Mat) (m : Nat) (z : Vec) (i : Nat)
    (hi : i < m) :
    (mulVecM (hstackM G (negM (eyeM m))) z).entry i
      = (mulVecM G z).entry i - z.entry (G.cols + i) := by
  show (∑ j ∈ Finset.range (G.cols + m),
      (if j < G.cols then G.entry i j
       else -(if i = j - G.cols then (1 : ℚ) else 0)) * z.entry j)
    = (∑ j ∈ Finset.range G.cols, G.entry i j * z.entry j)
      - z.entry (G.cols + i)
  rw [Finset.sum_range_add]
  have h1 : (∑ j ∈ Finset.range G.cols,
      (if j < G.cols then G.entry i j
       else -(if i = j - G.cols then (1 : ℚ) else 0)) * z.entry j)
      = ∑ j ∈ Finset.range G.cols, G.entry i j * z.entry j :=
    Finset.sum_congr rfl fun j hj => by
      rw [if_pos (Finset.mem_range.mp hj)]
  have h2 : (∑ j ∈ Finset.range m,
      (if G.cols + j < G.cols then G.entry i (G.cols + j)
       else -(if i = (G.cols + j) - G.cols then (1 : ℚ) else 0))
        * z.entry (G.cols + j))
      = -z.entry (G.cols + i) := by
    rw [Finset.sum_eq_single_of_mem i (Finset.mem_range.mpr hi)]
    · rw [if_neg (by omega), Nat.add_sub_cancel_left, if_pos rfl, neg_one_mul]
    · intro j _ hne
      rw [if_neg (by omega), Nat.add_sub_cancel_left, if_neg (by omega),
        neg_zero, zero_mul]
  rw [h1, h2]
  ring

/-- The augmented problem built for the concrete counterexample instance. -/
def cxSaferAug : Mat × Vec × Mat × Vec × Mat × Vec :=
  saferAugment wP1 wq1 wG1 wh1 1 (1/100)

/-- An augmented point with negative slack component. -/
def zNegSlack : Vec := vecOf [0, -1]

/-- An augmented point with positive slack component. -/
def zPosSlack : Vec := vecOf [0, 1]

/-- Counterexample for C1 as stated: on the concrete 1-variable instance,
the inequality system `(G2, h2)` that `solve_safer_qp` builds and dispatches
is satisfied by a point whose slack component is negative, and violated by a
point whose slack component is positive — so the built inequality is
`s <= 0`, not the claimed `s >= 0`. -/
theorem solve_safer_qp_slack_sign_cx :
    ((mulVecM cxSaferAug.2.2.1 zNegSlack).entry 0 ≤ cxSaferAug.2.2.2.1.entry 0)
  ∧ zNegSlack.entry 1 < 0
  ∧ ¬((mulVecM cxSaferAug.2.2.1 zPosSlack).entry 0 ≤ cxSaferAug.2.2.2.1.entry 0)
  ∧ 0 < zPosSlack.entry 1 := by
  refine ⟨?_, by norm_num [zNegSlack, vecOf], ?_, by norm_num [zPosSlack, vecOf]⟩
  · have hrow := mulVec_slack_row 1 1 zNegSlack 0 Nat.one_pos
    have : (mulVecM cxSaferAug.2.2.1 zNegSlack).entry 0
        = zNegSlack.entry 1 := hrow
    rw [this]
    norm_num [zNegSlack, vecOf, cxSaferAug, saferAugment, zerosV]
  · have hrow := mulVec_slack_row 1 1 zPosSlack 0 Nat.one_pos
    have : (mulVecM cxSaferAug.2.2.1 zPosSlack).entry 0
        = zPosSlack.entry 1 := hrow
    rw [this]
    norm_num [zPosSlack, vecOf, cxSaferAug, saferAugment, zerosV]

/-- C1 amended: for every dense `P` (n-by-n), `q` (length n), `G` (m-by-n),
`h` (length m), `sw` and `reg`, `solve_safer_qp` builds and dispatches the
augmented QP whose state vector is `[x; s]`, whose cost matrix is the block
diagonal of `P` and `reg` times the m-by-m identity with linear cost
`[q; -sw 1]`, and whose constraint system is the inequality `s <= 0`
(each built inequality row evaluates to a slack component, with right-hand
side zero) together with the equality `G x - s = h` replacing the original
inequality; the dispatched result is post-processed exactly as the source
does. -/
theorem solve_safer_qp_augmented (dense_solvers : List String)
    (registry : Registry) (P : Mat) (q : Vec) (G : Mat) (h : Vec)
    (sw reg : ℚ) (solver : String) (initvals : Option Vec) (sym_proj : Bool)
    (hsq : P.cols = P.rows) (hGc : G.cols = P.rows) (hq : q.len = P.rows)
    (hs : solver ∈ dense_solvers) :
    (saferAugment P q G h sw reg).1.rows = P.rows + G.rows
  ∧ (saferAugment P q G h sw reg).1.cols = P.rows + G.rows
  ∧ (∀ i, i < P.rows → ∀ j, j < P.rows →
      (saferAugment P q G h sw reg).1.entry i j = P.entry i j)
  ∧ (∀ i, i < P.rows → ∀ j,
      (saferAugment P q G h sw reg).1.entry i (P.rows + j) = 0)
  ∧ (∀ i, ∀ j, j < P.rows →
      (saferAugment P q G h sw reg).1.entry (P.rows + i) j = 0)
  ∧ (∀ i j, (saferAugment P q G h sw reg).1.entry (P.rows + i) (P.rows + j)
      = if i = j then reg else 0)
  ∧ (saferAugment P q G h sw reg).2.1.len = P.rows + G.rows
  ∧ (∀ i, i < P.rows →
      (saferAugment P q G h sw reg).2.1.entry i = q.entry i)
  ∧ (∀ i, (saferAugment P q G h sw reg).2.1.entry (P.rows + i) = -sw)
  ∧ (saferAugment P q G h sw reg).2.2.2.1.len = G.rows
  ∧ (∀ i, (saferAugment P q G h sw reg).2.2.2.1.entry i = 0)
  ∧ (∀ z : Vec, ∀ i, i < G.rows →
      (mulVecM (saferAugment P q G h sw reg).2.2.1 z).entry i
        = z.entry (P.rows + i))
  ∧ (saferAugment P q G h sw reg).2.2.2.2.2 = h
  ∧ (∀ z : Vec, ∀ i, i < G.rows →
      (mulVecM (saferAugment P q G h sw reg).2.2.2.2.1 z).entry i
        = (mulVecM G z).entry i - z.entry (P.rows + i))
  ∧ solve_safer_qp dense_solvers registry P q G h sw reg solver initvals
      sym_proj
      = (match solve_qp registry (saferAugment P q G h sw reg).1
            (saferAugment P q G h sw reg).2.1
            (some (.mat (saferAugment P q G h sw reg).2.2.1))
            (some (saferAugment P q G h sw reg).2.2.2.1)
            (some (.mat (saferAugment P q G h sw reg).2.2.2.2.1))
            (some (saferAugment P q G h sw reg).2.2.2.2.2)
            none none solver initvals sym_proj false with
         | .error e => .error e
         | .ok none => .ok none
         | .ok (some x) => .ok (some (takeV P.rows x))) := by
  refine ⟨rfl, ?_, ?_, ?_, ?_, ?_, ?_, ?_, ?_, rfl, fun i => rfl, ?_, rfl,
    ?_, ?_⟩
  · show P.cols + G.rows = P.rows + G.rows
    omega
  · intro i hi j hj
    show (if i < P.rows then
        (if j < P.cols then P.entry i j else (0 : ℚ))
      else _) = P.entry i j
    rw [if_pos hi, if_pos (by omega)]
  · intro i hi j
    show (if i < P.rows then
        (if P.rows + j < P.cols then P.entry i (P.rows + j) else (0 : ℚ))
      else _) = 0
    rw [if_pos hi, if_neg (by omega)]
  · intro i j hj
    show (if P.rows + i < P.rows then _
      else if j < P.rows then (0 : ℚ)
      else reg * (if P.rows + i - P.rows = j - P.rows then 1 else 0)) = 0
    rw [if_neg (by omega), if_pos hj]
  · intro i j
    show (if P.rows + i < P.rows then _
      else if P.rows + j < P.rows then (0 : ℚ)
      else reg * (if P.rows + i - P.rows = P.rows + j - P.rows then 1 else 0))
      = if i = j then reg else 0
    rw [if_neg (by omega), if_neg (by omega), Nat.add_sub_cancel_left,
      Nat.add_sub_cancel_left, mul_ite, mul_one, mul_zero]
  · show q.len + G.rows = P.rows + G.rows
    omega
  · intro i hi
    show (if i < q.len then q.entry i else _) = q.entry i
    rw [if_pos (by omega)]
  · intro i
    show (if P.rows + i < q.len then q.entry (P.rows + i) else -sw * 1) = -sw
    rw [if_neg (by omega), mul_one]
  · intro z i hi
    exact mulVec_slack_row P.rows G.rows z i hi
  · intro z i hi
    have hrow := mulVec_equality_row G G.rows z i hi
    rwa [hGc] at hrow
  · simp only [solve_safer_qp, if_pos hs]

/-- Witness for the amended C1 at the concrete 1-variable instance: the
regularization block, the slack cost entry, and the dispatched result. -/
theorem solve_safer_qp_augmented_witness :
    wP1.cols = wP1.rows ∧ wG1.cols = wP1.rows ∧ wq1.len = wP1.rows
  ∧ "s" ∈ ["s"]
  ∧ (saferAugment wP1 wq1 wG1 wh1 1 (1/100)).1.entry 1 1 = 1/100
  ∧ (saferAugment wP1 wq1 wG1 wh1 1 (1/100)).2.1.entry 1 = -1
  ∧ solve_safer_qp ["s"] wRegistry wP1 wq1 wG1 wh1 1 (1/100) "s" none false
      = .ok (some (takeV wP1.rows (vecOf [5, 7]))) := by
  have hth := solve_safer_qp_augmented ["s"] wRegistry wP1 wq1 wG1 wh1 1
    (1/100) "s" none false rfl rfl rfl (by decide)
  exact ⟨rfl, rfl, rfl, by decide,
    hth.2.2.2.2.2.1 0 0,
    hth.2.2.2.2.2.2.2.2.1 0,
    hth.2.2.2.2.2.2.2.2.2.2.2.2.2.2⟩

/-! ## C3 — the call-arity defect in `piqp_solve_qp` -/

/-- A concrete PIQP oracle used by witnesses: always reports solved with
primal `[3]`, equality dual `[]` and inequality dual `[3, 4]`. -/
def wOracle : PiqpOracle := fun _ _ => ⟨.solved, vecOf [3], vecOf [], vecOf [3, 4]⟩

/-- A concrete dense cost matrix on the PIQP interface. -/
def wProbMat : PiqpMat := .dense wP1

/-- C3 amended: whenever `Problem` construction succeeds, `piqp_solve_qp`
raises TypeError before any backend setup or solve occurs, because it
forwards four positional arguments to `piqp_solve_problem`, whose signature
accepts at most three positional parameters; and for every input whatsoever
`piqp_solve_qp` never returns a solution vector, so `initvals` can never
reach the solver through this entry point. -/
theorem piqp_solve_qp_arity (oracle : PiqpOracle) (P : PiqpMat) (q : Vec)
    (G : Option PiqpMat) (h : Option Vec) (A : Option PiqpMat)
    (b : Option Vec) (lb ub : Option Vec) (initvals : Option Vec)
    (verbose : Bool) (backend : Option String) :
    (∀ pb, mkProblem P q G h A b lb ub = .ok pb →
       piqp_solve_qp oracle P q G h A b lb ub initvals verbose backend
         = .error (.typeError "too many positional arguments"))
  ∧ (∀ r : Option Vec,
       piqp_solve_qp oracle P q G h A b lb ub initvals verbose backend
         ≠ .ok r) := by
  constructor
  · intro pb hpb
    simp only [piqp_solve_qp, hpb]
    rfl
  · intro r hcon
    unfold piqp_solve_qp at hcon
    cases hmk : mkProblem P q G h A b lb ub with
    | error e =>
      rw [hmk] at hcon
      have hcon2 : (Except.error e : Except PyExc (Option Vec)) = .ok r := hcon
      exact Except.noConfusion hcon2
    | ok pb =>
      rw [hmk] at hcon
      have hcon2 : (Except.error (PyExc.typeError "too many positional arguments")
          : Except PyExc (Option Vec)) = .ok r := hcon
      exact Except.noConfusion hcon2

/-- Witness for the amended C3: a well-formed concrete input reaches the
mis-arity call and comes back as TypeError. -/
theorem piqp_solve_qp_arity_witness :
    mkProblem wProbMat wq1 none none none none none none
      = .ok ⟨wProbMat, wq1, none, none, none, none, none, none⟩
  ∧ piqp_solve_qp wOracle wProbMat wq1 none none none none none none none
      false none
      = .error (.typeError "too many positional arguments") :=
  ⟨rfl,
   (piqp_solve_qp_arity wOracle wProbMat wq1 none none none none none none
     none false none).1 ⟨wProbMat, wq1, none, none, none, none, none, none⟩
     rfl⟩

/-- Counterexample for C3 as stated ("for every input ... raises a
TypeError"): with `G` supplied but `h` absent, `Problem` construction fails
first and `piqp_solve_qp` raises ProblemError, not TypeError. -/
theorem piqp_solve_qp_arity_cx :
    piqp_solve_qp wOracle wProbMat wq1 (some (.dense wG1)) none none none
      none none none false none
      = .error (.problemError "G is set but h is not set")
  ∧ (Except.error (PyExc.problemError "G is set but h is not set")
       : Except PyExc (Option Vec))
      ≠ .error (.typeError "too many positional arguments") :=
  ⟨rfl, by intro hcon; exact absurd (Except.error.inj hcon) (by decide)⟩

/-! ## C10 — dual-variable splitting in `piqp_solve_problem` -/

/-- Python slice `z[:-n]` coincides with "all but the last n entries" as
soon as `n` is at least 1. -/
theorem sliceToNegN_pos (n : Nat) (z : Vec) (hn : 1 ≤ n) :
    sliceToNegN n z = takeV (z.len - n) z := by
  unfold sliceToNegN
  rw [if_neg (by omega)]

/-- Python slice `z[-n:]` coincides with "the last n entries" as soon as `n`
is at least 1. -/
theorem sliceFromNegN_pos (n : Nat) (z : Vec) (hn : 1 ≤ n) :
    sliceFromNegN n z = dropV (z.len - n) z := by
  unfold sliceFromNegN
  rw [if_neg (by omega)]

/-- C10 amended: in `piqp_solve_problem`, for a problem with at least one
variable, whenever at least one of `lb`, `ub` is present the backend dual
vector `z` is split so that `solution.z` is all but its last `n` entries and
`solution.z_box` is exactly its last `n` entries, `n = len(q)`; when both
are absent `solution.z` is the backend dual unchanged and `z_box` is unset;
`solution.x` and `solution.y` are always copied from the backend result,
even when `found` is false. -/
theorem piqp_dual_split (oracle : PiqpOracle) (problem : Problem)
    (verbose : Bool) (backend : Option String) (bk : PiqpBackend)
    (hn : 1 ≤ problem.q.len)
    (hsel : selectBackend backend (use_csc problem.P problem.G problem.A)
      = .ok bk)
    (hz : problem.q.len ≤ (oracle bk (piqpSetupArgs problem verbose)).z.len) :
    piqp_solve_problem oracle problem verbose backend
      = .ok
        { problem := problem
          found := decide
            ((oracle bk (piqpSetupArgs problem verbose)).status = .solved)
          x := (oracle bk (piqpSetupArgs problem verbose)).x
          y := (oracle bk (piqpSetupArgs problem verbose)).y
          z := if problem.lb.isSome || problem.ub.isSome
               then takeV
                 ((oracle bk (piqpSetupArgs problem verbose)).z.len
                   - problem.q.len)
                 (oracle bk (piqpSetupArgs problem verbose)).z
               else (oracle bk (piqpSetupArgs problem verbose)).z
          z_box := if problem.lb.isSome || problem.ub.isSome
                   then some (dropV
                     ((oracle bk (piqpSetupArgs problem verbose)).z.len
                       - problem.q.len)
                     (oracle bk (piqpSetupArgs problem verbose)).z)
                   else none }
  ∧ (takeV ((oracle bk (piqpSetupArgs problem verbose)).z.len
        - problem.q.len) (oracle bk (piqpSetupArgs problem verbose)).z).len
      = (oracle bk (piqpSetupArgs problem verbose)).z.len - problem.q.len
  ∧ (∀ i, (takeV ((oracle bk (piqpSetupArgs problem verbose)).z.len
        - problem.q.len) (oracle bk (piqpSetupArgs problem verbose)).z).entry i
      = (oracle bk (piqpSetupArgs problem verbose)).z.entry i)
  ∧ (dropV ((oracle bk (piqpSetupArgs problem verbose)).z.len
        - problem.q.len) (oracle bk (piqpSetupArgs problem verbose)).z).len
      = problem.q.len
  ∧ (∀ i, (dropV ((oracle bk (piqpSetupArgs problem verbose)).z.len
        - problem.q.len) (oracle bk (piqpSetupArgs problem verbose)).z).entry i
      = (oracle bk (piqpSetupArgs problem verbose)).z.entry
          ((oracle bk (piqpSetupArgs problem verbose)).z.len
            - problem.q.len + i)) := by
  refine ⟨?_, ?_, fun i => rfl, ?_, fun i => rfl⟩
  · simp only [piqp_solve_problem, hsel,
      sliceToNegN_pos problem.q.len _ hn, sliceFromNegN_pos problem.q.len _ hn]
  · show min ((oracle bk (piqpSetupArgs problem verbose)).z.len
        - problem.q.len) (oracle bk (piqpSetupArgs problem verbose)).z.len
      = (oracle bk (piqpSetupArgs problem verbose)).z.len - problem.q.len
    omega
  · show (oracle bk (piqpSetupArgs problem verbose)).z.len
        - ((oracle bk (piqpSetupArgs problem verbose)).z.len - problem.q.len)
      = problem.q.len
    omega

/-- A concrete one-variable problem with a lower bound present. -/
def wProblemBox : Problem :=
  ⟨wProbMat, wq1, none, none, none, none, some (vecOf [0]), none⟩

/-- Witness for the amended C10 at a concrete one-variable problem with a
lower bound and a backend dual of length 2. -/
theorem piqp_dual_split_witness :
    1 ≤ wProblemBox.q.len
  ∧ selectBackend none (use_csc wProblemBox.P wProblemBox.G wProblemBox.A)
      = .ok .denseSolver
  ∧ wProblemBox.q.len
      ≤ (wOracle .denseSolver (piqpSetupArgs wProblemBox false)).z.len
  ∧ piqp_solve_problem wOracle wProblemBox false none
      = .ok ⟨wProblemBox, true, vecOf [3], vecOf [],
             takeV 1 (vecOf [3, 4]), some (dropV 1 (vecOf [3, 4]))⟩
  ∧ (dropV 1 (vecOf [3, 4])).len = 1 := by
  have hth := piqp_dual_split wOracle wProblemBox false none .denseSolver
    (by decide) rfl (by decide)
  exact ⟨by decide, rfl, by decide, hth.1, hth.2.2.2.1⟩

/-- Length of the inequality-dual part of a packaged solution (`None` for an
error result). -/
def solZlen (e : Except PyExc Solution) : Option Nat :=
  match e with
  | .ok s => some s.z.len
  | .error _ => none

/-- Length of the box-dual part of a packaged solution (`None` for an error
result; `some none` when `z_box` is unset). -/
def solZboxLen (e : Except PyExc Solution) : Option (Option Nat) :=
  match e with
  | .ok s => some (s.z_box.map Vec.len)
  | .error _ => none

/-- A zero-variable problem with a (trivially consistent, empty) lower
bound present. -/
def cxProbN0 : Problem :=
  ⟨.dense (matOf []), vecOf [], none, none, none, none, some (vecOf []), none⟩

/-- A PIQP oracle returning a one-entry inequality dual on the
zero-variable problem. -/
def cxOracleN0 : PiqpOracle := fun _ _ => ⟨.solved, vecOf [], vecOf [], vecOf [9]⟩

/-- Counterexample for C10 as stated: with `n = len(q) = 0` and `lb`
present, the Python slices degenerate (`z[:-0]` is empty and `z[-0:]` is the
whole array), so `solution.z` gets no entries instead of all but the last
zero, and `z_box` gets the whole backend dual instead of its last zero
entries. -/
theorem piqp_dual_split_cx :
    cxProbN0.lb.isSome = true
  ∧ cxProbN0.q.len = 0
  ∧ solZlen (piqp_solve_problem cxOracleN0 cxProbN0 false none) = some 0
  ∧ solZboxLen (piqp_solve_problem cxOracleN0 cxProbN0 false none)
      = some (some 1)
  ∧ solZlen (piqp_solve_problem cxOracleN0 cxProbN0 false none)
      ≠ some ((vecOf [9]).len - cxProbN0.q.len) := by
  refine ⟨rfl, rfl, rfl, rfl, ?_⟩
  intro hcon
  have hcon2 : (some 0 : Option Nat) = some 1 := hcon
  exact absurd (Option.some.inj hcon2) (by decide)

end QPSolvers
